import Mathlib

/-!
Shallow embedding of `src/app.py` (Text-Summarizer-YT-Website).

The repository's pipeline classes are embedded as Lean definitions:

* `YouTubeDocumentLoader.is_valid_url`, `WebsiteDocumentLoader.is_valid_url`
  and `DocumentLoaderFactory.get_loader` mirror the loader registry.
* `SummarizerConfig` mirrors the configuration class, including the exact
  f-string prompt template built in its constructor.
* `ContentSummarizer` state is `SummarizerState` (configuration plus the
  nullable llm handle), and its methods `validate_inputs`, `init_llm`
  (the source's `initialize_llm` method), `ContentSummarizer.load_documents`,
  `summarize_content` and `process_url` are embedded as explicit
  state-passing functions.

External collaborators (the `validators.url` syntax check, the `ChatGroq`
constructor, the two langchain document loaders and the remote model call)
are not code of this repository; they are modelled as a deterministic
environment `Env` of opaque-but-fixed functions.  Each embedded operation
additionally returns the list of `Event`s it triggered on the environment,
so that "no loader is invoked" / "no model call is attempted" claims are
statable.
-/

set_option autoImplicit false

namespace App

/-- The ASCII whitespace characters removed by Python's `str.strip()`. -/
def pyIsSpace (c : Char) : Bool :=
  c = ' ' || c = '\t' || c = '\n' || c = '\r' || c = '\x0b' || c = '\x0c'

/-- Python's `str.strip()`: drop leading and trailing whitespace. -/
def pyStrip (s : String) : String :=
  ⟨((s.data.dropWhile pyIsSpace).reverse.dropWhile pyIsSpace).reverse⟩

/-- Does `needle` occur as a contiguous sublist of the second argument? -/
def listHasSub (needle : List Char) : List Char → Bool
  | [] => needle.isEmpty
  | c :: rest => needle.isPrefixOf (c :: rest) || listHasSub needle rest

/-- Python's substring test `needle in hay` on strings. -/
def strContains (hay needle : String) : Bool :=
  listHasSub needle.data hay.data

/-- Extracted text segment: a langchain `Document` restricted to the field
the pipeline consumes (`page_content`). -/
structure Doc where
  page_content : String
  deriving DecidableEq

/-- The remote model client: `ChatGroq(model, groq_api_key)` restricted to
its constructor arguments. -/
structure ChatGroq where
  model : String
  groq_api_key : String
  deriving DecidableEq

/-- The two concrete loaders registered in `DocumentLoaderFactory`. -/
inductive LoaderKind
  | youtube
  | website
  deriving DecidableEq

/-- Calls made on the external collaborators, recorded as a trace. -/
inductive Event
  | initLLMCall
  | getLoaderCall
  | fetchCall (k : LoaderKind)
  | llmCall (prompt : String)
  deriving DecidableEq

/-- Deterministic environment standing for the external collaborators:
`validators.url`, the `ChatGroq` constructor (succeeds or raises), the two
loaders' network fetches (documents or an exception message), and the
remote summarization call (summary text or an exception message). -/
structure Env where
  validUrl : String → Bool
  initOk : String → String → Bool
  ytFetch : String → Except String (List Doc)
  webFetch : String → Except String (List Doc)
  llmRun : ChatGroq → String → Except String String

/-- `YouTubeDocumentLoader.is_valid_url`:
`"youtube.com" in url or "youtu.be" in url`. -/
def YouTubeDocumentLoader.is_valid_url (url : String) : Bool :=
  strContains url "youtube.com" || strContains url "youtu.be"

/-- `WebsiteDocumentLoader.is_valid_url`:
`validators.url(url) and "youtube.com" not in url and "youtu.be" not in url`. -/
def WebsiteDocumentLoader.is_valid_url (validUrl : String → Bool) (url : String) : Bool :=
  validUrl url && !(strContains url "youtube.com") && !(strContains url "youtu.be")

/-- `DocumentLoaderFactory.get_loader`: first-match over the fixed registry
`[YouTubeDocumentLoader(), WebsiteDocumentLoader()]`. -/
def get_loader (validUrl : String → Bool) (url : String) : Option LoaderKind :=
  if YouTubeDocumentLoader.is_valid_url url then some LoaderKind.youtube
  else if WebsiteDocumentLoader.is_valid_url validUrl url then some LoaderKind.website
  else none

/-- `SummarizerConfig`: model name, max word count, and the prompt template
f-string built in `__init__` (a triple-quoted string with a leading newline
and eight-space indentation; `\x7btext\x7d` is its literal placeholder). -/
structure SummarizerConfig where
  model_name : String
  max_words : Nat
  prompt_template : String
  deriving DecidableEq

/-- `SummarizerConfig.__init__(model_name, max_words)`. -/
def mkSummarizerConfig (model_name : String) (max_words : Nat) : SummarizerConfig :=
  ⟨model_name, max_words,
    "\n        Provide a summary of the following content in " ++ toString max_words ++
      " words:\n        Content:\x7btext\x7d\n        "⟩

/-- `SummarizerConfig()` with the source's default arguments, the only
configuration the application ever constructs (`StreamlitUI.__init__`). -/
def defaultConfig : SummarizerConfig :=
  mkSummarizerConfig "Gemma-7b-It" 300

/-- `ContentSummarizer` mutable state: the configuration and the nullable
`self.llm` handle (initially `None`). -/
structure SummarizerState where
  config : SummarizerConfig
  llm : Option ChatGroq
  deriving DecidableEq

/-- `ContentSummarizer.__init__(config)`: `self.llm = None`. -/
def mkSummarizer (config : SummarizerConfig) : SummarizerState :=
  ⟨config, none⟩

/-- `ContentSummarizer.initialize_llm`: construct `ChatGroq` with the
configured model name and the key; on success store it in `self.llm` and
return `True`, on a constructor exception leave `self.llm` unchanged and
return `False`.  Always one constructor call, recorded as `initLLMCall`. -/
def init_llm (env : Env) (st : SummarizerState) (groq_api_key : String) :
    (Bool × SummarizerState) × List Event :=
  if env.initOk st.config.model_name groq_api_key then
    ((true, ⟨st.config, some ⟨st.config.model_name, groq_api_key⟩⟩), [Event.initLLMCall])
  else
    ((false, st), [Event.initLLMCall])

/-- `ContentSummarizer.validate_inputs`. -/
def validate_inputs (env : Env) (groq_api_key url : String) : Bool × String :=
  if pyStrip groq_api_key = "" then (false, "Please provide a valid API Key")
  else if pyStrip url = "" then (false, "Please provide a URL")
  else if env.validUrl url = false then
    (false, "Please enter a valid URL. It can be a Youtube URL or a Website URL.")
  else (true, "")

/-- Dispatch of `loader.load_documents(url)` for the selected loader; both
concrete loaders delegate to an external fetch service. -/
def DocumentLoader.load_documents (env : Env) : LoaderKind → String → Except String (List Doc)
  | LoaderKind.youtube, url => env.ytFetch url
  | LoaderKind.website, url => env.webFetch url

/-- `ContentSummarizer.load_documents`: select a loader, fail with
"Unsupported URL format" when none matches, otherwise fetch; a fetch
exception becomes `"Failed to load documents : " + str(e)`. -/
def ContentSummarizer.load_documents (env : Env) (url : String) :
    (Option (List Doc) × String) × List Event :=
  match get_loader env.validUrl url with
  | none => ((none, "Unsupported URL format"), [Event.getLoaderCall])
  | some k =>
    match DocumentLoader.load_documents env k url with
    | Except.ok documents => ((some documents, ""), [Event.getLoaderCall, Event.fetchCall k])
    | Except.error e =>
      ((none, "Failed to load documents : " ++ e), [Event.getLoaderCall, Event.fetchCall k])

/-- Concatenation of the document text segments. -/
def concatTexts (documents : List Doc) : String :=
  String.join (documents.map Doc.page_content)

/-- Substitute `repl` for the first occurrence of `pat` in a character list
(the remainder is not rescanned). -/
def substOnce (pat repl : List Char) : List Char → List Char
  | [] => []
  | c :: rest =>
    if pat.isPrefixOf (c :: rest) then repl ++ (c :: rest).drop pat.length
    else c :: substOnce pat repl rest

/-- Modelled from the spec: the prompt assembly performed by the external
langchain `PromptTemplate`/stuff-chain code (not in this repository)
"builds a single prompt by substituting the concatenated document text into
a fixed template", i.e. it replaces the `\x7btext\x7d` placeholder of the
template with the text. -/
def formatPrompt (template text : String) : String :=
  ⟨substOnce ("\x7btext\x7d").data text.data template.data⟩

/-- `ContentSummarizer.summarize_content`: fail immediately when `self.llm`
is unset; otherwise build the stuff-chain prompt from the configured
template and the concatenated document text (modelled from the spec, the
chain internals being external langchain code), invoke the model exactly
once, and wrap a remote failure as `"Failed to generate summary: " + str(e)`. -/
def summarize_content (env : Env) (st : SummarizerState) (documents : List Doc) :
    (Option String × String) × List Event :=
  match st.llm with
  | none => ((none, "Language model not initialized"), [])
  | some llm =>
    let prompt := formatPrompt st.config.prompt_template (concatTexts documents)
    match env.llmRun llm prompt with
    | Except.ok summary => ((some summary, ""), [Event.llmCall prompt])
    | Except.error e => ((none, "Failed to generate summary: " ++ e), [Event.llmCall prompt])

/-- `ContentSummarizer.process_url`, exactly as written in the source:
validate, initialize the model client, load documents, and then return
`(None, error_msg)` unconditionally (the `return None, error_msg` at
app.py line 166; the `summarize_content` call below it in the source is
unreachable code).  Returns the result pair, the updated state and the
event trace. -/
def process_url (env : Env) (st : SummarizerState) (groq_api_key url : String) :
    (Option String × String) × SummarizerState × List Event :=
  let v := validate_inputs env groq_api_key url
  if v.fst then
    let i := init_llm env st groq_api_key
    if i.fst.fst then
      let l := ContentSummarizer.load_documents env url
      ((none, l.fst.snd), i.fst.snd, i.snd ++ l.snd)
    else
      ((none, "Failed to initialize language model"), i.fst.snd, i.snd)
  else
    ((none, v.snd), st, [])

/-- The intended orchestration per the spec's state machine (§4.4): the same
pipeline but with the summarize stage actually reached after a successful
load.  Kept for comparison with `process_url`. -/
def process_url_intended (env : Env) (st : SummarizerState) (groq_api_key url : String) :
    (Option String × String) × SummarizerState × List Event :=
  let v := validate_inputs env groq_api_key url
  if v.fst then
    let i := init_llm env st groq_api_key
    if i.fst.fst then
      let l := ContentSummarizer.load_documents env url
      match l.fst.fst with
      | none => ((none, l.fst.snd), i.fst.snd, i.snd ++ l.snd)
      | some documents =>
        let s := summarize_content env i.fst.snd documents
        match s.fst.fst with
        | none => ((none, s.fst.snd), i.fst.snd, i.snd ++ l.snd ++ s.snd)
        | some summary => ((some summary, ""), i.fst.snd, i.snd ++ l.snd ++ s.snd)
    else
      ((none, "Failed to initialize language model"), i.fst.snd, i.snd)
  else
    ((none, v.snd), st, [])

/-- Documents returned by the demo environment's fetchers. -/
def demoDocs : List Doc :=
  [⟨"Hello"⟩, ⟨"world"⟩]

/-- A concrete deterministic environment in which every external call
succeeds: the URL-syntax check accepts exactly strings containing "://". -/
def demoEnv : Env :=
  ⟨fun u => strContains u "://",
   fun _ _ => true,
   fun _ => Except.ok demoDocs,
   fun _ => Except.ok demoDocs,
   fun _ _ => Except.ok "A short summary."⟩

/-- A fresh summarizer over the default configuration. -/
def demoState : SummarizerState :=
  mkSummarizer defaultConfig

/-- A summarizer whose model client has been initialized. -/
def demoReadyState : SummarizerState :=
  ⟨defaultConfig, some ⟨"Gemma-7b-It", "key"⟩⟩

/-- The spec's discriminated-outcome invariant for a result pair: exactly
one of the summary and the error message is populated. -/
def exactlyOnePopulated (r : Option String × String) : Prop :=
  (r.fst ≠ none ∧ r.snd = "") ∨ (r.fst = none ∧ r.snd ≠ "")

/-! ### Helper lemmas -/

lemma string_append_data (s t : String) : (s ++ t).data = s.data ++ t.data := by
  cases s
  cases t
  rfl

lemma string_length_append (s t : String) : (s ++ t).length = s.length + t.length := by
  cases s
  cases t
  simp [String.length, String.append]

lemma failed_load_msg_ne (e : String) :
    "Failed to load documents : " ++ e ≠ "Unsupported URL format" := by
  intro hc
  have hl := congrArg String.length hc
  rw [string_length_append] at hl
  have h1 : ("Failed to load documents : " : String).length = 27 := rfl
  have h2 : ("Unsupported URL format" : String).length = 22 := rfl
  rw [h1, h2] at hl
  omega

lemma validate_fails_of_invalid (env : Env) (groq_api_key url : String)
    (h : env.validUrl url = false) :
    (validate_inputs env groq_api_key url).fst = false ∧
      (validate_inputs env groq_api_key url).snd ≠ "" := by
  unfold validate_inputs
  by_cases h1 : pyStrip groq_api_key = "" <;> by_cases h2 : pyStrip url = "" <;>
    simp [h1, h2, h]

lemma validUrl_of_validate (env : Env) (groq_api_key url : String)
    (h : (validate_inputs env groq_api_key url).fst = true) :
    env.validUrl url = true := by
  by_cases h3 : env.validUrl url = false
  · have := (validate_fails_of_invalid env groq_api_key url h3).left
    rw [h] at this
    exact absurd this (by decide)
  · exact Bool.not_eq_false _ |>.mp h3

lemma isPrefixOf_append_self (p b : List Char) : p.isPrefixOf (p ++ b) = true := by
  induction p with
  | nil => simp [List.isPrefixOf]
  | cons c cs ih => simp [List.isPrefixOf, ih]

lemma substOnce_concat (p : Char) (pt repl b : List Char) (a : List Char)
    (h : ∀ c ∈ a, (p == c) = false) :
    substOnce (p :: pt) repl (a ++ ((p :: pt) ++ b)) = a ++ (repl ++ b) := by
  induction a with
  | nil =>
    show substOnce (p :: pt) repl ((p :: pt) ++ b) = repl ++ b
    rw [List.cons_append]
    unfold substOnce
    rw [← List.cons_append, isPrefixOf_append_self]
    simp [List.drop_left]
  | cons c a' ih =>
    have hc : (p == c) = false := h c (List.mem_cons_self c a')
    show substOnce (p :: pt) repl (c :: (a' ++ ((p :: pt) ++ b))) = c :: (a' ++ (repl ++ b))
    unfold substOnce
    simp only [List.isPrefixOf, hc, Bool.false_and, Bool.false_eq_true, if_false]
    rw [ih (fun d hd => h d (List.mem_cons_of_mem c hd))]

/-! ### Claim theorems -/

/-- C1: contrary to the claim, `process_url` never reaches the Summarize
stage.  In a concrete environment where validation, model-client
initialization, document loading and the summarization call all succeed,
`process_url` returns `(none, "")` and its trace contains no model call,
even though the documents were loaded successfully and `summarize_content`
run on them in the resulting state would return a summary: the
`return None, error_msg` at app.py line 166 makes the summarize call
unreachable. -/
theorem process_url_never_summarizes :
    (process_url demoEnv demoState "key" "https://example.com").fst = (none, "") ∧
    (process_url demoEnv demoState "key" "https://example.com").snd.snd
      = [Event.initLLMCall, Event.getLoaderCall, Event.fetchCall LoaderKind.website] ∧
    (ContentSummarizer.load_documents demoEnv "https://example.com").fst = (some demoDocs, "") ∧
    (summarize_content demoEnv
        (process_url demoEnv demoState "key" "https://example.com").snd.fst demoDocs).fst
      = (some "A short summary.", "") := by
  decide

/-- C2: contrary to the claim, the pair returned by `process_url` can have
neither side populated: on a run where every stage succeeds it returns
`(none, "")` — summary absent and error message empty — violating the
discriminated-outcome invariant (a consequence of the early return at
app.py line 166). -/
theorem process_url_sides_both_empty :
    (process_url demoEnv demoState "key" "https://example.com").fst = (none, "") ∧
    ¬ exactlyOnePopulated (process_url demoEnv demoState "key" "https://example.com").fst := by
  unfold exactlyOnePopulated
  decide

/-- C3: every URL string containing `"youtube.com"` or `"youtu.be"` makes
`get_loader` return the YouTube loader and never the website loader,
whatever the generic URL-syntax check says. -/
theorem get_loader_video_for_fragment (validUrl : String → Bool) (url : String)
    (h : strContains url "youtube.com" = true ∨ strContains url "youtu.be" = true) :
    get_loader validUrl url = some LoaderKind.youtube ∧
    get_loader validUrl url ≠ some LoaderKind.website := by
  have hyt : YouTubeDocumentLoader.is_valid_url url = true := by
    unfold YouTubeDocumentLoader.is_valid_url
    rcases h with h | h <;> simp [h]
  refine ⟨?_, ?_⟩ <;> simp [get_loader, hyt]

/-- Witness for C3 at the concrete URL `https://www.youtube.com/watch`. -/
theorem get_loader_video_for_fragment_witness :
    get_loader (fun _ => true) "https://www.youtube.com/watch" = some LoaderKind.youtube ∧
    get_loader (fun _ => true) "https://www.youtube.com/watch" ≠ some LoaderKind.website :=
  get_loader_video_for_fragment (fun _ => true) "https://www.youtube.com/watch"
    (Or.inl (by decide))

/-- C4: for every environment, state and URL, an empty-after-trimming
credential makes `process_url` return
`(none, "Please provide a valid API Key")`, leave the state untouched, and
trigger no external call at all — in particular `initialize_llm` is never
invoked. -/
theorem empty_key_stops_pipeline (env : Env) (st : SummarizerState) (groq_api_key url : String)
    (h : pyStrip groq_api_key = "") :
    process_url env st groq_api_key url
      = ((none, "Please provide a valid API Key"), st, []) := by
  unfold process_url validate_inputs
  simp [h]

/-- Witness for C4 at the whitespace-only credential `" \t "`. -/
theorem empty_key_stops_pipeline_witness :
    process_url demoEnv demoState " \t " "https://example.com"
      = ((none, "Please provide a valid API Key"), demoState, []) :=
  empty_key_stops_pipeline demoEnv demoState " \t " "https://example.com" (by decide)

/-- C5: for every URL rejected by the generic URL-syntax check,
`process_url` terminates at the Validate stage: validation fails, the
result carries no summary and a non-empty validation message, and the
trace is empty — no loader selection, no fetch, no model-client
construction. -/
theorem invalid_url_stops_at_validate (env : Env) (st : SummarizerState)
    (groq_api_key url : String) (h : env.validUrl url = false) :
    (validate_inputs env groq_api_key url).fst = false ∧
    (process_url env st groq_api_key url).fst.fst = none ∧
    (process_url env st groq_api_key url).fst.snd = (validate_inputs env groq_api_key url).snd ∧
    (process_url env st groq_api_key url).fst.snd ≠ "" ∧
    (process_url env st groq_api_key url).snd.snd = [] := by
  obtain ⟨hf, hne⟩ := validate_fails_of_invalid env groq_api_key url h
  unfold process_url
  simp [hf, hne]

/-- Witness for C5 at the syntactically invalid URL `"not a url"`. -/
theorem invalid_url_stops_at_validate_witness :
    (validate_inputs demoEnv "key" "not a url").fst = false ∧
    (process_url demoEnv demoState "key" "not a url").fst.fst = none ∧
    (process_url demoEnv demoState "key" "not a url").fst.snd
      = (validate_inputs demoEnv "key" "not a url").snd ∧
    (process_url demoEnv demoState "key" "not a url").fst.snd ≠ "" ∧
    (process_url demoEnv demoState "key" "not a url").snd.snd = [] :=
  invalid_url_stops_at_validate demoEnv demoState "key" "not a url" (by decide)

/-- C6: for every environment and document list, invoking
`summarize_content` while `self.llm` is unset returns
`(none, "Language model not initialized")` with an empty trace — no remote
model call is attempted. -/
theorem summarize_requires_llm (env : Env) (st : SummarizerState) (documents : List Doc)
    (h : st.llm = none) :
    summarize_content env st documents = ((none, "Language model not initialized"), []) := by
  unfold summarize_content
  rw [h]

/-- Witness for C6 on a fresh summarizer state. -/
theorem summarize_requires_llm_witness :
    summarize_content demoEnv demoState demoDocs
      = ((none, "Language model not initialized"), []) :=
  summarize_requires_llm demoEnv demoState demoDocs (by decide)

/-- C10: the video-loader predicate is pure substring containment: every
string containing `"youtube.com"` or `"youtu.be"` anywhere — syntactically
valid URL or not — makes `get_loader` select the video loader, and the
website loader's predicate rejects every such string regardless of the
URL-syntax check. -/
theorem fragment_forces_video_loader (validUrl : String → Bool) (url : String)
    (h : strContains url "youtube.com" = true ∨ strContains url "youtu.be" = true) :
    get_loader validUrl url = some LoaderKind.youtube ∧
    WebsiteDocumentLoader.is_valid_url validUrl url = false := by
  have hyt : YouTubeDocumentLoader.is_valid_url url = true := by
    unfold YouTubeDocumentLoader.is_valid_url
    rcases h with h | h <;> simp [h]
  refine ⟨by simp [get_loader, hyt], ?_⟩
  unfold WebsiteDocumentLoader.is_valid_url
  rcases h with h | h <;> simp [h]

lemma mk_append3 (a b c : String) :
    (⟨a.data ++ (b.data ++ c.data)⟩ : String) = a ++ b ++ c := by
  cases a
  cases b
  cases c
  exact congrArg String.mk (List.append_assoc _ _ _).symm

lemma default_prompt_assembly (documents : List Doc) :
    formatPrompt defaultConfig.prompt_template (concatTexts documents)
      = "\n        Provide a summary of the following content in 300 words:\n        Content:"
          ++ concatTexts documents ++ "\n        " := by
  unfold formatPrompt
  have hsplit : defaultConfig.prompt_template.data
      = ("\n        Provide a summary of the following content in 300 words:\n        Content:" :
            String).data
        ++ (('\x7b' :: ("text\x7d" : String).data) ++ ("\n        " : String).data) := by
    decide
  have hpat : ("\x7btext\x7d" : String).data = '\x7b' :: ("text\x7d" : String).data := rfl
  rw [hsplit, hpat,
    substOnce_concat '\x7b' (("text\x7d" : String).data) (concatTexts documents).data
      (("\n        " : String).data)
      (("\n        Provide a summary of the following content in 300 words:\n        Content:" :
          String).data)
      (by decide)]
  exact mk_append3 _ (concatTexts documents) _

/-- C7 counterexample: on the video scenario of the spec (segments
`["Hello", "world"]`, default configuration, initialized model client) the
prompt actually sent to the model is the source's triple-quoted template —
with a leading newline and eight-space indentation — and is not equal to
the flat one-line template string the claim asserts. -/
theorem prompt_not_flat_template :
    (summarize_content demoEnv demoReadyState demoDocs).snd
      = [Event.llmCall
          "\n        Provide a summary of the following content in 300 words:\n        Content:Helloworld\n        "] ∧
    ("\n        Provide a summary of the following content in 300 words:\n        Content:Helloworld\n        " :
        String)
      ≠ "Provide a summary of the following content in 300 words: Content:Helloworld" := by
  decide

/-- C7 as amended: for every environment, model client and document list,
the prompt sent to the model under the default configuration equals the
source's template — which embeds the word count 300 at construction time
and carries a leading newline, eight-space indentation and a trailing
indented newline — with its placeholder replaced by the concatenation of
the document's text segments. -/
theorem stuff_prompt_uses_source_template (env : Env) (llm : ChatGroq) (documents : List Doc) :
    (summarize_content env ⟨defaultConfig, some llm⟩ documents).snd
      = [Event.llmCall
          ("\n        Provide a summary of the following content in 300 words:\n        Content:"
            ++ concatTexts documents ++ "\n        ")] := by
  unfold summarize_content
  simp only [default_prompt_assembly]
  cases hrun : env.llmRun llm
      ("\n        Provide a summary of the following content in 300 words:\n        Content:"
        ++ concatTexts documents ++ "\n        ") <;>
    simp [hrun]

/-- C8: with everything external deterministic, running `process_url` twice
in a row on the same summarizer with the same valid inputs yields the same
result pair and the same final state — the mutation of `self.llm` by the
first run does not change the second run's outcome. -/
theorem process_url_idempotent (env : Env) (st : SummarizerState) (groq_api_key url : String)
    (h : (validate_inputs env groq_api_key url).fst = true) :
    (process_url env (process_url env st groq_api_key url).snd.fst groq_api_key url).fst
        = (process_url env st groq_api_key url).fst ∧
    (process_url env (process_url env st groq_api_key url).snd.fst groq_api_key url).snd.fst
        = (process_url env st groq_api_key url).snd.fst := by
  by_cases hi : env.initOk st.config.model_name groq_api_key = true <;>
    · unfold process_url init_llm
      simp [h, hi]

/-- Witness for C8 at concrete valid inputs in the demo environment. -/
theorem process_url_idempotent_witness :
    (process_url demoEnv
        (process_url demoEnv demoState "key" "https://example.com").snd.fst
        "key" "https://example.com").fst
      = (process_url demoEnv demoState "key" "https://example.com").fst ∧
    (process_url demoEnv
        (process_url demoEnv demoState "key" "https://example.com").snd.fst
        "key" "https://example.com").snd.fst
      = (process_url demoEnv demoState "key" "https://example.com").snd.fst :=
  process_url_idempotent demoEnv demoState "key" "https://example.com" (by decide)

/-- C9: for every input pair accepted by `validate_inputs`, the loader
selector returns some loader (the website predicate accepts every
syntactically valid URL without a video fragment), so `process_url` can
never produce the "Unsupported URL format" message. -/
theorem valid_url_selects_loader (env : Env) (st : SummarizerState) (groq_api_key url : String)
    (h : (validate_inputs env groq_api_key url).fst = true) :
    (get_loader env.validUrl url).isSome = true ∧
    (process_url env st groq_api_key url).fst.snd ≠ "Unsupported URL format" := by
  have hv : env.validUrl url = true := validUrl_of_validate env groq_api_key url h
  have hsel : (get_loader env.validUrl url).isSome = true := by
    unfold get_loader
    by_cases hyt : YouTubeDocumentLoader.is_valid_url url = true
    · simp [hyt]
    · have hyt' : YouTubeDocumentLoader.is_valid_url url = false := by
        cases hb : YouTubeDocumentLoader.is_valid_url url
        · rfl
        · exact absurd hb hyt
      have hc : strContains url "youtube.com" = false ∧ strContains url "youtu.be" = false := by
        unfold YouTubeDocumentLoader.is_valid_url at hyt'
        simpa using hyt'
      simp [hyt', WebsiteDocumentLoader.is_valid_url, hv, hc.left, hc.right]
  refine ⟨hsel, ?_⟩
  unfold process_url
  cases hi : env.initOk st.config.model_name groq_api_key with
  | false =>
    simp [h, init_llm, hi]
  | true =>
    obtain ⟨k, hk⟩ := Option.isSome_iff_exists.mp hsel
    have hload : (ContentSummarizer.load_documents env url).fst.snd ≠ "Unsupported URL format" := by
      cases hfetch : DocumentLoader.load_documents env k url with
      | ok documents =>
        simp [ContentSummarizer.load_documents, hk, hfetch]
      | error e =>
        simp [ContentSummarizer.load_documents, hk, hfetch]
        simpa using failed_load_msg_ne e
    simp [h, init_llm, hi, hload]

/-- Witness for C9 at concrete valid inputs in the demo environment. -/
theorem valid_url_selects_loader_witness :
    (get_loader demoEnv.validUrl "https://example.com").isSome = true ∧
    (process_url demoEnv demoState "key" "https://example.com").fst.snd
      ≠ "Unsupported URL format" :=
  valid_url_selects_loader demoEnv demoState "key" "https://example.com" (by decide)

/-- Witness for C10 at the non-URL string `"see youtu.be for videos"`. -/
theorem fragment_forces_video_loader_witness :
    get_loader (fun _ => true) "see youtu.be for videos" = some LoaderKind.youtube ∧
    WebsiteDocumentLoader.is_valid_url (fun _ => true) "see youtu.be for videos" = false :=
  fragment_forces_video_loader (fun _ => true) "see youtu.be for videos"
    (Or.inr (by decide))

end App
